import Mathlib

/-!
Shallow embedding of `src/lambdas/YoutubeDownloader/lambda_function.py`.

The lambda resolves a video page URI to a direct media URL and metadata:
it validates the input, acquires a working public proxy (`get_proxy_list`
plus `check_proxy`), invokes the extraction library, and selects the
best-quality `mp4`/`https` format from the extractor's format list.

External effects (HTTP requests to the proxy-list provider, the probe
echo endpoint, and the extractor library) are modelled as oracle
functions bundled in a `World`; observable side effects (fetching the
proxy list, probing a candidate, the 1-second pacing sleep, an
extraction attempt) are recorded as an explicit `Step` trace.
-/

/-- One entry of the extractor's `formats` list: container extension
(`ext`), transport protocol (`protocol`) and resolved media address
(`url`), mirroring the dict fields read by the Python code. -/
structure FormatEntry where
  ext : String
  protocol : String
  url : String
deriving DecidableEq

/-- The structured output of `ytdl.extract_info`, restricted to the
fields the handler reads via `info.get(...)`.  Optional fields mirror
Python's `dict.get` returning `None` when absent; the `formats` list is
ordered ascending by quality (extractor contract). -/
structure ExtractionResult where
  id : Option String
  title : Option String
  description : Option String
  thumbnail : Option String
  timestamp : Option Nat
  uploader_id : Option String
  uploader : Option String
  formats : List FormatEntry
deriving DecidableEq

/-- The `response_data` dict built by the handler on success. -/
structure ResponseData where
  videoId : Option String
  videoUrl : String
  title : Option String
  description : Option String
  imageUri : Option String
  published : Option Nat
  uploaderId : Option String
  uploaderName : Option String
  ext : String
  mimeType : String
deriving DecidableEq

/-- The outcome of a probe GET issued by `check_proxy`: an HTTP status,
or a `requests.exceptions.RequestException` (network error / timeout). -/
inductive ProbeOutcome where
  | status (code : Nat)
  | error
deriving DecidableEq

/-- The request `check_proxy` issues: a GET to the fixed echo endpoint,
with the candidate installed as both the HTTP and the HTTPS proxy and a
5-second timeout. -/
structure ProbeRequest where
  url : String
  httpProxy : String
  httpsProxy : String
  timeout : Nat
deriving DecidableEq

/-- Observable side effects of one invocation, in order. -/
inductive Step where
  | fetchProxyList
  | probe (candidate : String)
  | sleep
  | extractAttempt (uri : String) (proxy : String)
deriving DecidableEq

/-- Result of `get_proxy_list`: the three early `raise` branches
(provider failure / empty body), exhaustion (`No proxies available`),
or a validated proxy. -/
inductive ProxyListResult where
  | failure (msg : String)
  | noProxy
  | ok (proxy : String)
deriving DecidableEq

/-- What `lambda_handler` produces: an error-response dict, a success
dict, Python's bare `return` (`None`) on extraction failure, an
exception propagating uncaught out of the proxy stage, or the uncaught
`IndexError` from `filtered_formats[0]` on an empty filter result. -/
inductive HandlerOutcome where
  | errorResponse (statusCode : Nat) (message : String)
  | success (statusCode : Nat) (data : ResponseData)
  | implicitNone
  | uncaughtException (msg : String)
  | uncaughtIndexError
deriving DecidableEq

/-- The invocation event: the one recognized field `uri` (read with
`event.get("uri")`) plus whatever other fields the caller sent, which
the handler never reads. -/
structure LambdaEvent where
  uri : Option String
  otherFields : List (String × String)

/-- The external collaborators of one invocation: the proxy-list
provider's HTTP status and body, the network behaviour of probe
requests, and the extraction library (which either returns an info
dict or raises, keyed by uri and proxy). -/
structure World where
  proxyStatus : Nat
  proxyBody : String
  net : ProbeRequest → ProbeOutcome
  extract : String → String → Except String ExtractionResult

/-- Python `response.text.split("\r\n")` on the character list: split on
each occurrence of the exact two-character separator CRLF, keeping
empty pieces, exactly as `str.split` with a non-empty separator does. -/
def splitCRLF : List Char → List (List Char)
  | [] => [[]]
  | [c] => [[c]]
  | c :: d :: rest =>
    if c = '\r' ∧ d = '\n' then [] :: splitCRLF rest
    else match splitCRLF (d :: rest) with
      | [] => [[c]]
      | g :: gs => (c :: g) :: gs

/-- `body.split("\r\n")` at the `String` level. -/
def pySplitCRLF (body : String) : List String :=
  (splitCRLF body.data).map String.mk

/-- Python `proxy.startswith("http")`, on the character lists so that
it computes by structural recursion. -/
def startsWithHTTP (s : String) : Bool :=
  "http".data.isPrefixOf s.data

/-- Python `response.content == 0`: comparing `bytes` with `int` is
always `False`, so the `Empty content` branch of `get_proxy_list` is
dead code. -/
def contentEqZero : Bool := false

/-- The probe request `check_proxy` builds for a candidate: fixed echo
URL, the candidate as both `http` and `https` proxy, `timeout=5`. -/
def probeRequestFor (proxy : String) : ProbeRequest :=
  { url := "https://httpbun.com/get"
    httpProxy := proxy
    httpsProxy := proxy
    timeout := 5 }

/-- `check_proxy`: issue the probe GET; `True` exactly on HTTP 200,
`False` on any other status; a `RequestException` (network error or
timeout) is caught and also yields `False`. -/
def check_proxy (net : ProbeRequest → ProbeOutcome) (proxy : String) : Bool :=
  match net (probeRequestFor proxy) with
  | ProbeOutcome.status code => code == 200
  | ProbeOutcome.error => false

/-- The `for proxy in proxies` loop of `get_proxy_list`: skip lines not
starting with `http` (no sleep), return the first candidate whose probe
succeeds, and `time.sleep(1)` after every failed probe.  Returns the
found proxy (or `none` when the list is exhausted) together with the
probe/sleep trace. -/
def scanProxies (chk : String → Bool) : List String → Option String × List Step
  | [] => (none, [])
  | p :: rest =>
    if startsWithHTTP p = false then scanProxies chk rest
    else if chk p then (some p, [Step.probe p])
    else
      let r := scanProxies chk rest
      (r.fst, Step.probe p :: Step.sleep :: r.snd)

/-- `get_proxy_list`: GET the proxy list (one `Step.fetchProxyList`);
raise on a non-200 status or an empty body (the `content == 0` branch
is dead, see `contentEqZero`); otherwise split the body on CRLF and
scan the candidates, raising `No proxies available` on exhaustion. -/
def get_proxy_list (status : Nat) (body : String) (net : ProbeRequest → ProbeOutcome) :
    ProxyListResult × List Step :=
  if status ≠ 200 then (ProxyListResult.failure "Failed to get proxy list", [Step.fetchProxyList])
  else if body = "" then (ProxyListResult.failure "Empty response", [Step.fetchProxyList])
  else if contentEqZero then (ProxyListResult.failure "Empty content", [Step.fetchProxyList])
  else
    let proxies := pySplitCRLF body
    let r := scanProxies (check_proxy net) proxies
    match r.fst with
    | some p => (ProxyListResult.ok p, Step.fetchProxyList :: r.snd)
    | none => (ProxyListResult.noProxy, Step.fetchProxyList :: r.snd)

/-- The selection predicate of the `filter` lambda:
`x.get("ext") == "mp4" and x.get("protocol") == "https"`. -/
def isTargetFormat (x : FormatEntry) : Bool :=
  x.ext == "mp4" && x.protocol == "https"

/-- `filtered_formats = list(filter(..., formats[::-1]))` followed by
`filtered_formats[0]`: `none` models the `IndexError` raised when the
filtered list is empty. -/
def selectBestFormat (formats : List FormatEntry) : Option FormatEntry :=
  (formats.reverse.filter isTargetFormat).head?

/-- The `response_data` dict: extraction metadata plus the selected
format's url and ext; `mimeType` is the literal `"video/mp4"`. -/
def buildResponse (info : ExtractionResult) (best : FormatEntry) : ResponseData :=
  { videoId := info.id
    videoUrl := best.url
    title := info.title
    description := info.description
    imageUri := info.thumbnail
    published := info.timestamp
    uploaderId := info.uploader_id
    uploaderName := info.uploader
    ext := best.ext
    mimeType := "video/mp4" }

/-- The tail of the handler after a successful extraction: select the
best format (`IndexError` when none matches) and build the 200
response. -/
def handleInfo (info : ExtractionResult) : HandlerOutcome :=
  match selectBestFormat info.formats with
  | none => HandlerOutcome.uncaughtIndexError
  | some best => HandlerOutcome.success 200 (buildResponse info best)

/-- The `try: ... extract_info ... except Exception: ... return` block:
on an extractor exception the handler logs and falls off with a bare
`return` (`None`). -/
def handleExtraction (w : World) (uri proxy : String) : HandlerOutcome :=
  match w.extract uri proxy with
  | Except.error _ => HandlerOutcome.implicitNone
  | Except.ok info => handleInfo info

/-- `lambda_handler`: 400 with `uri is required` when the event has no
`uri` (nothing else runs); then proxy acquisition, whose exceptions
propagate uncaught; then one extraction attempt with the acquired
proxy. -/
def lambda_handler (w : World) (event : LambdaEvent) : HandlerOutcome × List Step :=
  match event.uri with
  | none => (HandlerOutcome.errorResponse 400 "uri is required", [])
  | some uri =>
    match get_proxy_list w.proxyStatus w.proxyBody w.net with
    | (ProxyListResult.failure m, t) => (HandlerOutcome.uncaughtException m, t)
    | (ProxyListResult.noProxy, t) => (HandlerOutcome.uncaughtException "No proxies available", t)
    | (ProxyListResult.ok proxy, t) =>
      (handleExtraction w uri proxy, t ++ [Step.extractAttempt uri proxy])

/-- Recognizer for the `failure` (early-raise) results of
`get_proxy_list`, as opposed to exhaustion or success. -/
def isProxyListFailure : ProxyListResult → Bool
  | ProxyListResult.failure _ => true
  | _ => false

/-- Recognizer for extraction-attempt steps in a trace. -/
def isExtractStep : Step → Bool
  | Step.extractAttempt _ _ => true
  | _ => false

/-- The probe-then-sleep trace fragment a failed candidate leaves. -/
def probePair (q : String) : List Step :=
  [Step.probe q, Step.sleep]

/-! Concrete fixtures used to instantiate the theorems. -/

/-- The spec's example format `{ext:webm, protocol:https}` (lowest quality). -/
def fmtWebmHttps : FormatEntry := { ext := "webm", protocol := "https", url := "u1" }

/-- The spec's example format `{ext:mp4, protocol:https}` (middle quality). -/
def fmtMp4Https : FormatEntry := { ext := "mp4", protocol := "https", url := "u2" }

/-- The spec's example format `{ext:mp4, protocol:http}` (highest quality, wrong transport). -/
def fmtMp4Http : FormatEntry := { ext := "mp4", protocol := "http", url := "u3" }

/-- The spec's example ascending-quality format list. -/
def exampleFormats : List FormatEntry := [fmtWebmHttps, fmtMp4Https, fmtMp4Http]

/-- Network oracle where probing through `http://a` raises and any other
probe answers 200. -/
def netAB (req : ProbeRequest) : ProbeOutcome :=
  if req.httpProxy == "http://a" then ProbeOutcome.error else ProbeOutcome.status 200

/-- Network oracle where every probe answers 200. -/
def netAll200 (_ : ProbeRequest) : ProbeOutcome := ProbeOutcome.status 200

/-- Network oracle where every probe raises a request exception. -/
def netDown (_ : ProbeRequest) : ProbeOutcome := ProbeOutcome.error

/-- An extraction result whose format list has no `mp4`/`https` entry. -/
def infoNoMp4 : ExtractionResult :=
  { id := some "vid", title := some "t", description := some "d", thumbnail := some "th",
    timestamp := some 5, uploader_id := some "uid", uploader := some "up",
    formats := [fmtWebmHttps] }

/-- An extraction result carrying the spec's example format list. -/
def infoExample : ExtractionResult :=
  { id := some "vid", title := some "t", description := some "d", thumbnail := some "th",
    timestamp := some 5, uploader_id := some "uid", uploader := some "up",
    formats := exampleFormats }

/-- World where the proxy stage succeeds and extraction yields
`infoNoMp4`. -/
def worldNoMp4 : World :=
  { proxyStatus := 200, proxyBody := "http://p",
    net := netAll200,
    extract := fun _ _ => Except.ok infoNoMp4 }

/-- World where the proxy stage succeeds and extraction yields
`infoExample`. -/
def worldExample : World :=
  { proxyStatus := 200, proxyBody := "http://p",
    net := netAll200,
    extract := fun _ _ => Except.ok infoExample }

/-- World where the proxy stage succeeds and extraction raises. -/
def worldExtractRaises : World :=
  { proxyStatus := 200, proxyBody := "http://p",
    net := netAll200,
    extract := fun _ _ => Except.error "boom" }

/-- An event with a `uri` field. -/
def eventWithUri : LambdaEvent := { uri := some "https://v", otherFields := [] }

/-! Helper lemmas. -/

/-- Taking the head of a filtered list is `find?`. -/
theorem head?_filter_eq_find? {α : Type} (p : α → Bool) (l : List α) :
    (l.filter p).head? = l.find? p := by
  induction l with
  | nil => rfl
  | cons a t ih =>
    simp only [List.filter_cons, List.find?]
    split <;> simp_all

/-- A successful `find?` splits the list around the found element, with
everything before it failing the predicate. -/
theorem find?_eq_some_split {α : Type} (p : α → Bool) :
    ∀ (l : List α) (a : α), l.find? p = some a →
      ∃ l₁ l₂, l = l₁ ++ a :: l₂ ∧ p a = true ∧ ∀ b ∈ l₁, p b = false
  | [], a, h => by simp [List.find?] at h
  | x :: t, a, h => by
    by_cases hx : p x = true
    · rw [List.find?_cons_of_pos _ hx] at h
      obtain rfl : x = a := by injection h
      exact ⟨[], t, rfl, hx, by simp⟩
    · rw [List.find?_cons_of_neg _ hx] at h
      obtain ⟨l₁, l₂, rfl, ha, hall⟩ := find?_eq_some_split p t a h
      exact ⟨x :: l₁, l₂, rfl, ha, by
        intro b hb
        rcases List.mem_cons.mp hb with rfl | hb
        · exact Bool.not_eq_true _ ▸ (by simpa using hx)
        · exact hall b hb⟩

/-- If any element satisfies the predicate, `find?` succeeds. -/
theorem find?_isSome_of_any {α : Type} (p : α → Bool) :
    ∀ l : List α, l.any p = true → ∃ a, l.find? p = some a
  | [], h => by simp at h
  | x :: t, h => by
    by_cases hx : p x = true
    · exact ⟨x, List.find?_cons_of_pos _ hx⟩
    · rw [List.find?_cons_of_neg _ hx]
      refine find?_isSome_of_any p t ?_
      simpa [List.any_cons, hx] using h


/-- A selected format satisfies the predicate and comes from the list. -/
theorem selectBestFormat_some_mem (formats : List FormatEntry) (best : FormatEntry)
    (h : selectBestFormat formats = some best) :
    isTargetFormat best = true ∧ best ∈ formats := by
  rw [selectBestFormat, head?_filter_eq_find?] at h
  exact ⟨List.find?_some h, List.mem_reverse.mp (List.mem_of_find?_eq_some h)⟩

/-- When no format matches the predicate, selection hits the
`IndexError` case. -/
theorem selectBestFormat_eq_none (formats : List FormatEntry)
    (h : ∀ f ∈ formats, isTargetFormat f = false) :
    selectBestFormat formats = none := by
  rw [selectBestFormat, List.head?_eq_none_iff, List.filter_eq_nil_iff]
  intro a ha
  simp [h a (List.mem_reverse.mp ha)]

/-- A CRLF-free body is returned whole by the split. -/
theorem splitCRLF_no_cr : ∀ l : List Char, '\r' ∉ l → splitCRLF l = [l]
  | [], _ => rfl
  | [_], _ => rfl
  | c :: d :: rest, h => by
    have hc : c ≠ '\r' := fun hh => h (by simp [hh])
    have h2 : '\r' ∉ d :: rest := fun hh => h (List.mem_cons_of_mem _ hh)
    have ih := splitCRLF_no_cr (d :: rest) h2
    simp only [splitCRLF]
    rw [if_neg (fun hand => hc hand.1), ih]

/-- Characterization of a successful scan: the returned candidate is an
`http` line whose probe succeeded, every earlier `http` line failed its
probe, and the trace is exactly one probe-sleep pair per earlier `http`
line followed by the successful probe. -/
theorem scanProxies_some_split (chk : String → Bool) :
    ∀ (l : List String) (p : String) (t : List Step),
      scanProxies chk l = (some p, t) →
      chk p = true ∧ startsWithHTTP p = true ∧
      ∃ pre post, l = pre ++ p :: post ∧
        (∀ q ∈ pre, startsWithHTTP q = true → chk q = false) ∧
        t = ((pre.filter startsWithHTTP).map probePair).flatten ++ [Step.probe p]
  | [], p, t, h => by simp [scanProxies] at h
  | x :: rest, p, t, h => by
    by_cases hs : startsWithHTTP x = false
    · rw [scanProxies, if_pos hs] at h
      obtain ⟨hp, hsp, pre, post, rfl, hpre, ht⟩ := scanProxies_some_split chk rest p t h
      refine ⟨hp, hsp, x :: pre, post, rfl, ?_, ?_⟩
      · intro q hq hqs
        rcases List.mem_cons.mp hq with rfl | hq
        · exact absurd hqs (by simp [hs])
        · exact hpre q hq hqs
      · rw [ht]
        simp [List.filter_cons, hs]
    · rw [scanProxies, if_neg hs] at h
      by_cases hc : chk x = true
      · rw [if_pos hc] at h
        obtain ⟨rfl, rfl⟩ : x = p ∧ [Step.probe x] = t := by
          constructor <;> [injection (congrArg Prod.fst h); exact congrArg Prod.snd h]
        exact ⟨hc, Bool.not_eq_false _ ▸ hs, [], rest, rfl, by simp, by simp⟩
      · rw [if_neg hc] at h
        have hfst : (scanProxies chk rest).fst = some p := congrArg Prod.fst h
        have hsnd : Step.probe x :: Step.sleep :: (scanProxies chk rest).snd = t :=
          congrArg Prod.snd h
        obtain ⟨hp, hsp, pre, post, hrest, hpre, ht⟩ :=
          scanProxies_some_split chk rest p (scanProxies chk rest).snd
            (by rw [← hfst])
        refine ⟨hp, hsp, x :: pre, post, by simp [hrest], ?_, ?_⟩
        · intro q hq hqs
          rcases List.mem_cons.mp hq with rfl | hq
          · exact Bool.not_eq_true _ ▸ (by simpa using hc)
          · exact hpre q hq hqs
        · rw [← hsnd, ht]
          simp [List.filter_cons, Bool.not_eq_false _ ▸ hs, probePair]

/-- When every probed (`http`-prefixed) candidate's probe fails, the
scan exhausts the list; lines not starting with `http` are skipped
without a probe, so nothing is required of them. -/
theorem scanProxies_none_of_all_fail (chk : String → Bool) :
    ∀ l : List String, (∀ x ∈ l, startsWithHTTP x = true → chk x = false) →
      (scanProxies chk l).fst = none
  | [], _ => rfl
  | x :: rest, h => by
    have ih := scanProxies_none_of_all_fail chk rest
      (fun q hq => h q (List.mem_cons_of_mem _ hq))
    by_cases hs : startsWithHTTP x = false
    · rw [scanProxies, if_pos hs]; exact ih
    · have hsx : startsWithHTTP x = true := by simpa using hs
      rw [scanProxies, if_neg hs,
        if_neg (by simp [h x (List.mem_cons_self x rest) hsx])]
      exact ih

/-- The scan trace contains only probe and sleep steps. -/
theorem scanProxies_steps_not_extract (chk : String → Bool) :
    ∀ (l : List String) (st : Step), st ∈ (scanProxies chk l).snd →
      isExtractStep st = false
  | [], st, h => by simp [scanProxies] at h
  | x :: rest, st, h => by
    by_cases hs : startsWithHTTP x = false
    · rw [scanProxies, if_pos hs] at h
      exact scanProxies_steps_not_extract chk rest st h
    · rw [scanProxies, if_neg hs] at h
      by_cases hc : chk x = true
      · rw [if_pos hc] at h
        simp only [List.mem_singleton] at h
        simp [h, isExtractStep]
      · rw [if_neg hc] at h
        simp only [List.mem_cons] at h
        rcases h with rfl | rfl | h
        · rfl
        · rfl
        · exact scanProxies_steps_not_extract chk rest st h

/-- Inverting a successful `get_proxy_list`: the provider answered 200
with a non-empty body and the scan found the proxy. -/
theorem get_proxy_list_ok_inv (s : Nat) (b : String) (net : ProbeRequest → ProbeOutcome)
    (p : String) (t : List Step)
    (h : get_proxy_list s b net = (ProxyListResult.ok p, t)) :
    s = 200 ∧ b ≠ "" ∧
    ∃ t', scanProxies (check_proxy net) (pySplitCRLF b) = (some p, t') ∧
      t = Step.fetchProxyList :: t' := by
  simp only [get_proxy_list] at h
  by_cases h1 : s ≠ 200
  · rw [if_pos h1] at h
    exact absurd (congrArg Prod.fst h) (by simp)
  · rw [if_neg h1] at h
    by_cases h2 : b = ""
    · rw [if_pos h2] at h
      exact absurd (congrArg Prod.fst h) (by simp)
    · rw [if_neg h2, if_neg (by simp [contentEqZero])] at h
      refine ⟨by omega, h2, ?_⟩
      cases hr : (scanProxies (check_proxy net) (pySplitCRLF b)).fst with
      | none =>
        rw [hr] at h
        exact absurd (congrArg Prod.fst h) (by simp)
      | some q =>
        rw [hr] at h
        have hq : q = p := by
          have := congrArg Prod.fst h
          simpa using this
        subst hq
        refine ⟨(scanProxies (check_proxy net) (pySplitCRLF b)).snd, by rw [← hr], ?_⟩
        have := congrArg Prod.snd h
        simpa using this.symm

/-- When the proxy stage succeeds, the handler runs exactly one
extraction attempt with the acquired proxy. -/
theorem lambda_handler_ok_proxy (w : World) (uri : String) (o : List (String × String))
    (proxy : String) (t : List Step)
    (h : get_proxy_list w.proxyStatus w.proxyBody w.net = (ProxyListResult.ok proxy, t)) :
    lambda_handler w { uri := some uri, otherFields := o } =
      (handleExtraction w uri proxy, t ++ [Step.extractAttempt uri proxy]) := by
  simp only [lambda_handler]
  rw [h]

/-- Inverting a 200 response: the event had a uri, the proxy stage
succeeded, extraction succeeded, and format selection succeeded; the
body is exactly the built response. -/
theorem lambda_handler_success_inv (w : World) (ev : LambdaEvent) (sc : Nat)
    (data : ResponseData)
    (h : (lambda_handler w ev).fst = HandlerOutcome.success sc data) :
    ∃ uri proxy info best t,
      ev.uri = some uri ∧
      get_proxy_list w.proxyStatus w.proxyBody w.net = (ProxyListResult.ok proxy, t) ∧
      w.extract uri proxy = Except.ok info ∧
      selectBestFormat info.formats = some best ∧
      sc = 200 ∧ data = buildResponse info best := by
  cases hu : ev.uri with
  | none => simp [lambda_handler, hu] at h
  | some uri =>
    simp only [lambda_handler, hu] at h
    cases hg : get_proxy_list w.proxyStatus w.proxyBody w.net with
    | mk res t =>
      rw [hg] at h
      cases res with
      | failure m => simp at h
      | noProxy => simp at h
      | ok proxy =>
        simp only [] at h
        cases hx : w.extract uri proxy with
        | error e => simp [handleExtraction, hx] at h
        | ok info =>
          simp only [handleExtraction, hx] at h
          cases hb : selectBestFormat info.formats with
          | none => simp [handleInfo, hb] at h
          | some best =>
            simp only [handleInfo, hb] at h
            injection h with hsc hdata
            exact ⟨uri, proxy, info, best, t, rfl, rfl, hx, hb, hsc.symm, hdata.symm⟩

/-! The claims. -/

/-- C1: whenever the ascending-quality format list has an `mp4`/`https`
entry, selection returns the highest-quality (last-listed) such entry —
the first matching entry of the reversed list — and on the spec's
example list `[webm/https, mp4/https, mp4/http]` it returns the middle
entry. -/
theorem claim_c1_selection_highest_quality :
    (∀ formats : List FormatEntry, formats.any isTargetFormat = true →
      ∃ best pre post,
        selectBestFormat formats = some best ∧
        formats = pre ++ best :: post ∧
        isTargetFormat best = true ∧
        ∀ b ∈ post, isTargetFormat b = false) ∧
    selectBestFormat exampleFormats = some fmtMp4Https := by
  constructor
  · intro formats h
    have hany : formats.reverse.any isTargetFormat = true := by simpa using h
    obtain ⟨a, ha⟩ := find?_isSome_of_any _ _ hany
    obtain ⟨l₁, l₂, hsplit, hpa, hall⟩ := find?_eq_some_split _ _ _ ha
    refine ⟨a, l₂.reverse, l₁.reverse, ?_, ?_, hpa, ?_⟩
    · rw [selectBestFormat, head?_filter_eq_find?, ha]
    · have h2 : formats = (l₁ ++ a :: l₂).reverse := by
        rw [← hsplit, List.reverse_reverse]
      rw [h2]
      simp
    · intro b hb
      exact hall b (List.mem_reverse.mp hb)
  · decide

/-- C1 witness: the general part applied to the spec's example list. -/
theorem claim_c1_witness :
    ∃ best pre post,
      selectBestFormat exampleFormats = some best ∧
      exampleFormats = pre ++ best :: post ∧
      isTargetFormat best = true ∧
      ∀ b ∈ post, isTargetFormat b = false :=
  claim_c1_selection_highest_quality.1 exampleFormats (by decide)

/-- C2 counterexample: with a proxy available and an extraction result
whose only format is `webm`/`https`, the handler hits the uncaught
`IndexError` from `filtered_formats[0]` instead of returning an
explicit `NoSuitableFormat` failure. -/
theorem claim_c2_counterexample :
    (lambda_handler worldNoMp4 eventWithUri).fst = HandlerOutcome.uncaughtIndexError := by
  decide

/-- C2 (amended): with no `mp4`/`https` entry the handler raises an
unhandled index-out-of-range error (no explicit failure response, no
Response constructed); and a Response is only ever constructed when at
least one format entry satisfies the selection predicate. -/
theorem claim_c2_amended :
    (∀ (w : World) (uri : String) (o : List (String × String)) (proxy : String)
        (t : List Step) (info : ExtractionResult),
      get_proxy_list w.proxyStatus w.proxyBody w.net = (ProxyListResult.ok proxy, t) →
      w.extract uri proxy = Except.ok info →
      (∀ f ∈ info.formats, isTargetFormat f = false) →
      (lambda_handler w { uri := some uri, otherFields := o }).fst =
        HandlerOutcome.uncaughtIndexError) ∧
    (∀ (w : World) (ev : LambdaEvent) (sc : Nat) (data : ResponseData),
      (lambda_handler w ev).fst = HandlerOutcome.success sc data →
      ∃ uri proxy info best,
        ev.uri = some uri ∧
        w.extract uri proxy = Except.ok info ∧
        best ∈ info.formats ∧ isTargetFormat best = true ∧
        data = buildResponse info best) := by
  constructor
  · intro w uri o proxy t info hg hx hf
    rw [lambda_handler_ok_proxy w uri o proxy t hg]
    simp only [handleExtraction, hx, handleInfo, selectBestFormat_eq_none info.formats hf]
  · intro w ev sc data h
    obtain ⟨uri, proxy, info, best, t, hu, hg, hx, hb, hsc, hdata⟩ :=
      lambda_handler_success_inv w ev sc data h
    obtain ⟨hbt, hbm⟩ := selectBestFormat_some_mem info.formats best hb
    exact ⟨uri, proxy, info, best, hu, hx, hbm, hbt, hdata⟩

/-- C2 witness: the amended claim applied to the concrete
no-`mp4`/`https` world. -/
theorem claim_c2_witness :
    (lambda_handler worldNoMp4 { uri := some "https://v", otherFields := [] }).fst =
      HandlerOutcome.uncaughtIndexError :=
  claim_c2_amended.1 worldNoMp4 "https://v" [] "http://p"
    [Step.fetchProxyList, Step.probe "http://p"] infoNoMp4 (by decide) rfl (by decide)

/-- C3: a successful acquisition probed the `http`-prefixed candidates
in list order — every earlier `http` candidate failed its probe, each
failed probe is followed by the 1-second sleep, and the trace ends at
the first successful probe (no probe after success).  On the concrete
list `http://a CRLF http://b` with `a` failing, it returns `b` after
exactly two probes separated by one sleep. -/
theorem claim_c3_sequential_scan :
    (∀ (status : Nat) (body : String) (net : ProbeRequest → ProbeOutcome)
        (proxy : String) (trace : List Step),
      get_proxy_list status body net = (ProxyListResult.ok proxy, trace) →
      check_proxy net proxy = true ∧ startsWithHTTP proxy = true ∧
      ∃ pre post, pySplitCRLF body = pre ++ proxy :: post ∧
        (∀ q ∈ pre, startsWithHTTP q = true → check_proxy net q = false) ∧
        trace = Step.fetchProxyList ::
          (((pre.filter startsWithHTTP).map probePair).flatten ++ [Step.probe proxy])) ∧
    get_proxy_list 200 "http://a\r\nhttp://b" netAB =
      (ProxyListResult.ok "http://b",
        [Step.fetchProxyList, Step.probe "http://a", Step.sleep, Step.probe "http://b"]) := by
  constructor
  · intro status body net proxy trace h
    obtain ⟨-, -, t', hscan, rfl⟩ := get_proxy_list_ok_inv status body net proxy trace h
    obtain ⟨hp, hsp, pre, post, hsplit, hpre, ht⟩ :=
      scanProxies_some_split (check_proxy net) (pySplitCRLF body) proxy t' hscan
    exact ⟨hp, hsp, pre, post, hsplit, hpre, by rw [ht]⟩
  · decide

/-- C3 witness: the general part applied to the two-candidate example. -/
theorem claim_c3_witness :
    check_proxy netAB "http://b" = true ∧ startsWithHTTP "http://b" = true ∧
    ∃ pre post, pySplitCRLF "http://a\r\nhttp://b" = pre ++ "http://b" :: post ∧
      (∀ q ∈ pre, startsWithHTTP q = true → check_proxy netAB q = false) ∧
      [Step.fetchProxyList, Step.probe "http://a", Step.sleep, Step.probe "http://b"] =
        Step.fetchProxyList ::
          (((pre.filter startsWithHTTP).map probePair).flatten ++ [Step.probe "http://b"]) :=
  claim_c3_sequential_scan.1 200 "http://a\r\nhttp://b" netAB "http://b"
    [Step.fetchProxyList, Step.probe "http://a", Step.sleep, Step.probe "http://b"] (by decide)

/-- C4: an event without a `uri` gets the fixed 400 response whatever
the other fields and the outside world are, and nothing else runs (the
step trace is empty: no proxy-list fetch, no probe, no extraction). -/
theorem claim_c4_missing_uri (w : World) (o : List (String × String)) :
    lambda_handler w { uri := none, otherFields := o } =
      (HandlerOutcome.errorResponse 400 "uri is required", []) := rfl

/-- C5: on every successful invocation, the response's `mimeType`
matches the actually selected format entry's container (its `ext`): the
selection predicate forces `ext = "mp4"`, so the built `"video/mp4"`
equals `"video/" ++ ext` of the selected entry, and the response `ext`
is the selected entry's `ext`. -/
theorem claim_c5_mime_type_matches_selection (w : World) (ev : LambdaEvent) (sc : Nat)
    (data : ResponseData)
    (h : (lambda_handler w ev).fst = HandlerOutcome.success sc data) :
    ∃ uri proxy info best,
      ev.uri = some uri ∧
      w.extract uri proxy = Except.ok info ∧
      selectBestFormat info.formats = some best ∧
      data.ext = best.ext ∧
      data.mimeType = "video/" ++ best.ext := by
  obtain ⟨uri, proxy, info, best, t, hu, hg, hx, hb, hsc, hdata⟩ :=
    lambda_handler_success_inv w ev sc data h
  have hbext : best.ext = "mp4" := by
    have hbt := (selectBestFormat_some_mem info.formats best hb).1
    rw [isTargetFormat, Bool.and_eq_true, beq_iff_eq, beq_iff_eq] at hbt
    exact hbt.1
  refine ⟨uri, proxy, info, best, hu, hx, hb, ?_, ?_⟩
  · rw [hdata]
    rfl
  · rw [hdata, hbext]
    rfl

/-- C5 witness: a concrete successful invocation over the spec's
example format list. -/
theorem claim_c5_witness :
    ∃ uri proxy info best,
      eventWithUri.uri = some uri ∧
      worldExample.extract uri proxy = Except.ok info ∧
      selectBestFormat info.formats = some best ∧
      (buildResponse infoExample fmtMp4Https).ext = best.ext ∧
      (buildResponse infoExample fmtMp4Https).mimeType = "video/" ++ best.ext :=
  claim_c5_mime_type_matches_selection worldExample eventWithUri 200
    (buildResponse infoExample fmtMp4Https) (by decide)

/-- C6: `get_proxy_list` raises one of its early list-failure
exceptions exactly when the provider's status is not 200 or the body is
empty; in particular an empty body raises `Empty response` before any
candidate is probed (the trace holds only the list fetch). -/
theorem claim_c6_list_failure_iff :
    (∀ (status : Nat) (body : String) (net : ProbeRequest → ProbeOutcome),
      isProxyListFailure (get_proxy_list status body net).fst = true ↔
        (status ≠ 200 ∨ body = "")) ∧
    ∀ net : ProbeRequest → ProbeOutcome,
      get_proxy_list 200 "" net =
        (ProxyListResult.failure "Empty response", [Step.fetchProxyList]) := by
  constructor
  · intro status body net
    by_cases h1 : status ≠ 200
    · refine iff_of_true ?_ (Or.inl h1)
      simp only [get_proxy_list]
      rw [if_pos h1]
      rfl
    · by_cases h2 : body = ""
      · refine iff_of_true ?_ (Or.inr h2)
        simp only [get_proxy_list]
        rw [if_neg h1, if_pos h2]
        rfl
      · refine iff_of_false ?_ (by simp [h1, h2])
        simp only [get_proxy_list]
        rw [if_neg h1, if_neg h2, if_neg (by simp [contentEqZero])]
        cases hr : (scanProxies (check_proxy net) (pySplitCRLF body)).fst with
        | none => simp [isProxyListFailure]
        | some q => simp [isProxyListFailure]
  · intro net
    rfl

/-- C6 witness: the iff applied to an empty body. -/
theorem claim_c6_witness :
    isProxyListFailure (get_proxy_list 200 "" netDown).fst = true :=
  (claim_c6_list_failure_iff.1 200 "" netDown).mpr (Or.inr rfl)

/-- C7: when the provider answered 200 with a non-empty body and no
candidate's probe succeeds — the candidates being the split lines that
start with `http`, the only ones the loop probes — `get_proxy_list`
exhausts the list and raises `No proxies available` (it returns no
candidate). -/
theorem claim_c7_exhaustion (status : Nat) (body : String)
    (net : ProbeRequest → ProbeOutcome)
    (h1 : status = 200) (h2 : body ≠ "")
    (h3 : ∀ p ∈ pySplitCRLF body, startsWithHTTP p = true → check_proxy net p = false) :
    (get_proxy_list status body net).fst = ProxyListResult.noProxy := by
  subst h1
  simp only [get_proxy_list]
  rw [if_neg (by omega), if_neg h2, if_neg (by simp [contentEqZero])]
  rw [scanProxies_none_of_all_fail (check_proxy net) (pySplitCRLF body) h3]

/-- C7 witness: the body `"http://a\r\n"` splits into `["http://a", ""]`;
only the `http` line is probed (and fails under `netAB`), the empty
line is skipped even though a probe through it would answer 200, and
acquisition exhausts the list. -/
theorem claim_c7_witness :
    (get_proxy_list 200 "http://a\r\n" netAB).fst = ProxyListResult.noProxy :=
  claim_c7_exhaustion 200 "http://a\r\n" netAB rfl (by decide) (by decide)

/-- C8: when the proxy stage succeeded and the extractor raises, the
handler returns the implicit `None` (no success response, no explicit
failure response), having performed exactly one extraction attempt —
with the single acquired proxy, so no retry and no fallback proxy. -/
theorem claim_c8_extraction_failure_returns_nothing (w : World) (uri : String)
    (o : List (String × String)) (proxy : String) (t : List Step) (e : String)
    (hg : get_proxy_list w.proxyStatus w.proxyBody w.net = (ProxyListResult.ok proxy, t))
    (hx : w.extract uri proxy = Except.error e) :
    lambda_handler w { uri := some uri, otherFields := o } =
      (HandlerOutcome.implicitNone, t ++ [Step.extractAttempt uri proxy]) ∧
    (t ++ [Step.extractAttempt uri proxy]).filter isExtractStep =
      [Step.extractAttempt uri proxy] := by
  constructor
  · rw [lambda_handler_ok_proxy w uri o proxy t hg]
    simp only [handleExtraction, hx]
  · obtain ⟨-, -, t', hscan, rfl⟩ := get_proxy_list_ok_inv _ _ _ _ _ hg
    have hsteps : ∀ st ∈ t', isExtractStep st = false := by
      intro st hst
      refine scanProxies_steps_not_extract (check_proxy w.net) (pySplitCRLF w.proxyBody) st ?_
      rw [hscan]
      exact hst
    rw [List.filter_append]
    have h1 : (Step.fetchProxyList :: t').filter isExtractStep = [] := by
      rw [List.filter_cons, if_neg (by simp [isExtractStep])]
      exact List.filter_eq_nil_iff.mpr (fun a ha => by simp [hsteps a ha])
    rw [h1]
    simp [isExtractStep]

/-- C8 witness: a concrete world whose extractor always raises. -/
theorem claim_c8_witness :
    lambda_handler worldExtractRaises { uri := some "u", otherFields := [] } =
      (HandlerOutcome.implicitNone,
        [Step.fetchProxyList, Step.probe "http://p"] ++ [Step.extractAttempt "u" "http://p"]) ∧
    ([Step.fetchProxyList, Step.probe "http://p"] ++
        [Step.extractAttempt "u" "http://p"]).filter isExtractStep =
      [Step.extractAttempt "u" "http://p"] :=
  claim_c8_extraction_failure_returns_nothing worldExtractRaises "u" [] "http://p"
    [Step.fetchProxyList, Step.probe "http://p"] "boom" (by decide) rfl

/-- C9: the probe succeeds iff the GET through the candidate — sent to
the fixed echo endpoint with the candidate as both HTTP and HTTPS proxy
and a 5-second timeout — answers HTTP 200; a request exception
(network error or timeout) makes the probe return `false` rather than
propagate. -/
theorem claim_c9_probe_iff_http_200 (net : ProbeRequest → ProbeOutcome) (proxy : String) :
    (check_proxy net proxy = true ↔
      net (probeRequestFor proxy) = ProbeOutcome.status 200) ∧
    (net (probeRequestFor proxy) = ProbeOutcome.error → check_proxy net proxy = false) ∧
    (probeRequestFor proxy).httpProxy = proxy ∧
    (probeRequestFor proxy).httpsProxy = proxy ∧
    (probeRequestFor proxy).timeout = 5 ∧
    (probeRequestFor proxy).url = "https://httpbun.com/get" := by
  refine ⟨?_, ?_, rfl, rfl, rfl, rfl⟩
  · cases hn : net (probeRequestFor proxy) with
    | status code => simp [check_proxy, hn]
    | error => simp [check_proxy, hn]
  · intro hn
    simp [check_proxy, hn]

/-- C9 witness: the iff applied to a concrete candidate whose probe
answers 200. -/
theorem claim_c9_witness : check_proxy netAB "http://b" = true :=
  (claim_c9_probe_iff_http_200 netAB "http://b").1.mpr (by decide)

/-- C10: candidates come from splitting the body on the exact CRLF
sequence only: a CRLF-free body (e.g. one using bare LF separators) is
one single candidate — concretely, `"http://a\nhttp://b"` splits into
itself alone and is returned whole by acquisition — while a CRLF body
splits into one candidate per line. -/
theorem claim_c10_crlf_only_split :
    (∀ body : List Char, '\r' ∉ body → splitCRLF body = [body]) ∧
    pySplitCRLF "http://a\nhttp://b" = ["http://a\nhttp://b"] ∧
    pySplitCRLF "http://a\r\nhttp://b" = ["http://a", "http://b"] ∧
    (get_proxy_list 200 "http://a\nhttp://b" netAll200).fst =
      ProxyListResult.ok "http://a\nhttp://b" :=
  ⟨splitCRLF_no_cr, by decide, by decide, by decide⟩

/-- C10 witness: the general part applied to a concrete CRLF-free body. -/
theorem claim_c10_witness : splitCRLF "ab".data = ["ab".data] :=
  claim_c10_crlf_only_split.1 "ab".data (by decide)
